import Mathlib

/-
Verification of the WebTestAssistant backend (backend/app.py): a Flask
service with process-global run state, a start/stop/status HTTP surface,
a background worker thread driving a browser-automation agent, and a
cooperative screenshot poller.  The definitions below are a shallow
embedding of that code: module-level globals become the `RunState`
record, each Flask handler becomes a pure function from state and
request to response and new state, and the worker thread body becomes a
function parameterised by an oracle (`WorkerEnv`) giving the outcome of
every delegated external call (LLM client construction, browser
construction, agent construction, agent run, browser close).
-/

namespace WebTestAssistant

/-- Characters Python's `str.strip` removes (ASCII whitespace as tested by
`str.isspace`). -/
def pyIsSpace (c : Char) : Bool :=
  c = ' ' || c = '\t' || c = '\n' || c = '\r' || c = '\x0b' || c = '\x0c'

/-- Truth value of Python `not s.strip()`: the string is empty or consists
only of whitespace. -/
def stripIsEmpty (s : String) : Bool :=
  s.toList.all pyIsSpace

/-- The module-level globals of app.py: `current_test`, `test_status`,
`test_logs`, `browser_screenshot`, `browser_url`. -/
structure RunState where
  current_test : Option String
  test_status : String
  test_logs : List String
  browser_screenshot : Option String
  browser_url : String
  deriving Repr, DecidableEq

/-- The globals as the module initialises them. -/
def initState : RunState :=
  { current_test := none
    test_status := "idle"
    test_logs := []
    browser_screenshot := none
    browser_url := "" }

/-- The fixed remote-debugging port constant `cdp_port`. -/
def cdp_port : Nat := 9222

/-- A JSON response: HTTP code plus the keys the handlers of app.py put in
their `jsonify` bodies. -/
structure Resp where
  code : Nat
  errorMsg : Option String
  message : Option String
  statusVal : Option String
  testId : Option String
  cdpPort : Option Nat
  deriving Repr, DecidableEq

/-- An error response, as `jsonify(\x7b"error": e\x7d), c` produces. -/
def Resp.err (c : Nat) (e : String) : Resp :=
  { code := c, errorMsg := some e, message := none, statusVal := none
    testId := none, cdpPort := none }

/-- Process environment as the start handler reads it: the GEMINI_API_KEY
variable and the import-time `BROWSER_USE_AVAILABLE` flag. -/
structure Env where
  gemini_api_key : Option String
  browser_use_available : Bool
  deriving Repr, DecidableEq

/-- Result of the `/api/run-test` handler: the response, the new globals,
and the steps handed to a freshly spawned worker thread (`none` when no
thread was started). -/
structure StartResult where
  resp : Resp
  state : RunState
  spawned : Option String
  deriving Repr, DecidableEq

/-- The `/api/run-test` handler.  `body = none` models a request whose
parsed JSON is `None` (so `data.get` raises and the outer `except` answers
500); `body = some ts` models a JSON object whose `testSteps` value is
`ts` (`none` when the key is absent, in which case `data.get` yields
the default `""`). -/
def run_test (env : Env) (st : RunState) (body : Option (Option String)) :
    StartResult :=
  match body with
  | none =>
      { resp := Resp.err 500 "Failed to start test: NoneType object has no attribute get"
        state := st, spawned := none }
  | some ts =>
      let test_steps := ts.getD ""
      if stripIsEmpty test_steps then
        { resp := Resp.err 400 "Test steps cannot be empty", state := st, spawned := none }
      else if st.test_status = "running" || st.test_status = "initializing" then
        { resp := Resp.err 409 "A test is already running", state := st, spawned := none }
      else if env.gemini_api_key.getD "" = "" then
        { resp := Resp.err 500 "GEMINI_API_KEY is not configured", state := st, spawned := none }
      else if !env.browser_use_available then
        { resp := Resp.err 500 "browser-use library is not available. Please install it with: pip install browser-use"
          state := st, spawned := none }
      else
        let st2 : RunState :=
          { current_test := some test_steps
            test_status := "starting"
            test_logs := ["Test steps received", "Preparing to start test execution..."]
            browser_screenshot := none
            browser_url := "" }
        { resp :=
            { code := 200, errorMsg := none, message := some "Test execution started"
              statusVal := some st2.test_status, testId := some "current"
              cdpPort := some cdp_port }
          state := st2, spawned := some test_steps }

/-- Result of the `/api/stop-test` handler. -/
structure StopResult where
  resp : Resp
  state : RunState
  deriving Repr, DecidableEq

/-- The `/api/stop-test` handler. -/
def stop_test (st : RunState) : StopResult :=
  if st.test_status = "running" || st.test_status = "initializing" then
    { resp := { code := 200, errorMsg := none, message := some "Test execution stopped"
                statusVal := none, testId := none, cdpPort := none }
      state := { st with
                  test_status := "stopped"
                  test_logs := st.test_logs ++ ["Test execution stopped by user"] } }
  else
    { resp := { code := 200, errorMsg := none, message := some "No test is currently running"
                statusVal := none, testId := none, cdpPort := none }
      state := st }

/-- Observable actions of the worker thread, in the order they happen:
writes to `test_status`, appends to `test_logs`, the creation of the
screenshot task, the call `agent.run(max_steps=25)` with its task text,
and the attempt to close the browser. -/
inductive WEvent where
  | setStatus (s : String)
  | appendLog (l : String)
  | startPoller
  | agentRun (task : String) (maxSteps : Nat)
  | closeBrowser
  deriving Repr, DecidableEq

/-- Worker-side view of the globals together with the trace of actions
performed so far. -/
structure W where
  state : RunState
  events : List WEvent
  deriving Repr, DecidableEq

/-- `test_logs.append l`. -/
def W.log (w : W) (l : String) : W :=
  { state := { w.state with test_logs := w.state.test_logs ++ [l] }
    events := w.events ++ [WEvent.appendLog l] }

/-- `test_status = s`. -/
def W.setStatus (w : W) (s : String) : W :=
  { state := { w.state with test_status := s }
    events := w.events ++ [WEvent.setStatus s] }

/-- Record an action that does not touch the globals. -/
def W.ev (w : W) (e : WEvent) : W :=
  { state := w.state, events := w.events ++ [e] }

/-- Oracle for every delegated external call the worker makes.  A field of
value `some e` means that call raises an exception whose text is `e`;
`none` means it succeeds.  `unexpected` models an exception surfacing at
the re-await of the cancelled screenshot task (the one spot of the `try`
body not covered by a stage-local handler); it reaches the outermost
`except` of `TestRunner.run_test`. -/
structure WorkerEnv where
  browser_use_available : Bool
  runner_init : Option String
  browser_init : Option String
  agent_create : Option String
  agent_run : Option String
  unexpected : Option String
  browser_close : Option String
  deriving Repr, DecidableEq

/-- Model of `traceback.format_exc()` for an exception with text `e`. -/
def pyTraceback (e : String) : String :=
  "Traceback (most recent call last): " ++ e

/-- Outcome of the `try` body of `TestRunner.run_test` (lines 64-124):
state and events so far, whether `self.browser` was assigned, and the
exception (if any) escaping the body into the outer `except`. -/
structure BodyResult where
  w : W
  browser : Bool
  raised : Option String
  deriving Repr, DecidableEq

/-- The `try` body of `TestRunner.run_test`: set status initializing, build
the browser, set status running, build the agent, start the screenshot
task, await `agent.run(max_steps=25)`, then cancel and re-await the
screenshot task.  Each `return` of the source is a branch here. -/
def runTestBody (env : WorkerEnv) (test_steps : String) (w0 : W) : BodyResult :=
  let w := (w0.setStatus "initializing").log "Starting WebTestAssistant..."
  if !env.browser_use_available then
    { w := (w.log "Error: browser-use library not available").setStatus "error"
      browser := false, raised := none }
  else
    let w := w.log "Initializing browser with remote debugging..."
    match env.browser_init with
    | some e =>
        { w := (w.log ("Browser initialization failed: " ++ e)).setStatus "error"
          browser := false, raised := none }
    | none =>
        let w := w.log "Browser initialized successfully"
        let w := ((w.setStatus "running").log "Starting AI agent...").log
          "Browser view will be available shortly..."
        match env.agent_create with
        | some e =>
            { w := (w.log ("Failed to create AI agent: " ++ e)).setStatus "error"
              browser := true, raised := none }
        | none =>
            let w := (w.log "AI agent created successfully").log "Running test automation..."
            let w := w.ev WEvent.startPoller
            let w := w.ev (WEvent.agentRun ("Execute the following test steps:\n" ++ test_steps) 25)
            let w :=
              match env.agent_run with
              | none => (w.log "Test execution completed successfully!").setStatus "completed"
              | some e => (w.log ("Test execution error: " ++ e)).setStatus "error"
            { w := w, browser := true, raised := env.unexpected }

/-- Result of one worker-thread execution: the final globals, the event
trace, and the exception escaping the thread target (always `none`: every
path is handled). -/
structure WorkerResult where
  state : RunState
  events : List WEvent
  escaped : Option String
  deriving Repr, DecidableEq

/-- The coroutine `TestRunner.run_test`: the `try` body, the outermost
`except` (status error, error text and traceback appended), and the
`finally` that closes the browser when one was assigned, logging the
outcome without touching `test_status`. -/
def TestRunner.run_test (env : WorkerEnv) (test_steps : String) (w0 : W) :
    WorkerResult :=
  let b := runTestBody env test_steps w0
  let w :=
    match b.raised with
    | none => b.w
    | some e =>
        ((b.w.setStatus "error").log ("Unexpected error: " ++ e)).log
          ("Traceback: " ++ pyTraceback e)
  if b.browser then
    match env.browser_close with
    | none =>
        let w := (w.ev WEvent.closeBrowser).log "Browser closed"
        { state := w.state, events := w.events, escaped := none }
    | some e =>
        let w := (w.ev WEvent.closeBrowser).log ("Error closing browser: " ++ e)
        { state := w.state, events := w.events, escaped := none }
  else
    { state := w.state, events := w.events, escaped := none }

/-- The thread target `run_async_test`: construct the `TestRunner` (which
may raise, e.g. while building the LLM client), run the coroutine in a
fresh event loop, and catch any constructor failure by recording
status error and the error text. -/
def run_async_test (env : WorkerEnv) (test_steps : String) (st : RunState) :
    WorkerResult :=
  match env.runner_init with
  | some e =>
      { state := { st with
                    test_status := "error"
                    test_logs := st.test_logs ++ ["Failed to initialize test runner: " ++ e] }
        events := [WEvent.setStatus "error",
                   WEvent.appendLog ("Failed to initialize test runner: " ++ e)]
        escaped := none }
  | none => TestRunner.run_test env test_steps { state := st, events := [] }

/-- Whole-system state: the globals plus the spawned worker threads that
have not yet run. -/
structure Sys where
  run : RunState
  pending : List String
  deriving Repr, DecidableEq

/-- The system as the process starts: fresh globals, no worker. -/
def Sys.start : Sys := { run := initState, pending := [] }

/-- System-level events: an HTTP start request (with its parsed body), an
HTTP stop request, or the scheduling of the oldest pending worker thread,
which then runs to completion under oracle `wenv`. -/
inductive SysEvent where
  | startReq (body : Option (Option String))
  | stopReq
  | workerRun (wenv : WorkerEnv)
  deriving Repr

/-- One system step: the handler or worker executes atomically; HTTP
events produce a response. -/
def Sys.step (env : Env) (sys : Sys) (e : SysEvent) : Sys × Option Resp :=
  match e with
  | SysEvent.startReq body =>
      let r := run_test env sys.run body
      ({ run := r.state
         pending := sys.pending ++ (match r.spawned with | some s => [s] | none => []) },
       some r.resp)
  | SysEvent.stopReq =>
      let r := stop_test sys.run
      ({ run := r.state, pending := sys.pending }, some r.resp)
  | SysEvent.workerRun wenv =>
      match sys.pending with
      | [] => (sys, none)
      | s :: rest =>
          ({ run := (run_async_test wenv s sys.run).state, pending := rest }, none)

/-- Run a list of system events from a state. -/
def Sys.exec (env : Env) : Sys → List SysEvent → Sys
  | sys, [] => sys
  | sys, e :: es => Sys.exec env (Sys.step env sys e).1 es

/-- The standard base64 alphabet. -/
def b64Alphabet : List Char :=
  ("ABCDEFGHIJKLMNOPQRSTUVWXYZabcdefghijklmnopqrstuvwxyz0123456789+/").toList

/-- The alphabet character for a 6-bit group. -/
def b64Char (n : Nat) : Char :=
  b64Alphabet.getD (n % 64) 'A'

/-- Base64 encoding of a byte sequence, three bytes to four characters
with `=` padding; this models `base64.b64encode(bytes).decode("utf-8")`. -/
def b64EncodeChunks : List Nat → List Char
  | [] => []
  | [b1] =>
      let n := (b1 % 256) * 65536
      [b64Char (n / 262144), b64Char (n / 4096), '=', '=']
  | [b1, b2] =>
      let n := (b1 % 256) * 65536 + (b2 % 256) * 256
      [b64Char (n / 262144), b64Char (n / 4096), b64Char (n / 64), '=']
  | b1 :: b2 :: b3 :: rest =>
      let n := (b1 % 256) * 65536 + (b2 % 256) * 256 + b3 % 256
      b64Char (n / 262144) :: b64Char (n / 4096) :: b64Char (n / 64) :: b64Char n ::
        b64EncodeChunks rest

/-- Base64 encoding as a string. -/
def base64Encode (bs : List Nat) : String :=
  String.mk (b64EncodeChunks bs)

/-- Membership in the base64 alphabet. -/
def isB64Char (c : Char) : Bool :=
  b64Alphabet.contains c

/-- A syntactically valid base64 text: groups of four alphabet characters,
with the last group allowed one or two `=` padding characters. -/
def validB64Chunks : List Char → Bool
  | [] => true
  | c1 :: c2 :: c3 :: c4 :: rest =>
      if rest.isEmpty then
        isB64Char c1 && isB64Char c2 &&
          ((c3 = '=' && c4 = '=') ||
           (isB64Char c3 && c4 = '=') ||
           (isB64Char c3 && isB64Char c4))
      else
        isB64Char c1 && isB64Char c2 && isB64Char c3 && isB64Char c4 &&
          validB64Chunks rest
  | _ => false

/-- A string is valid base64. -/
def validBase64 (s : String) : Bool :=
  validB64Chunks s.toList

/-- Program counter of the screenshot poller `capture_screenshots`:
about to evaluate the `while` guard; past the guard with a live page,
awaiting `page.screenshot(...)`; awaiting the between-iterations sleep;
or returned. -/
inductive PollerPC where
  | atGuard
  | capturing
  | sleeping
  | done
  deriving Repr, DecidableEq

/-- The poller's view of the run: the global status, screenshot and url,
the poller's program counter, the status observed by the last passed
guard, and for each completed screenshot write the pair (status when its
iteration's guard was evaluated, status at the moment of the write). -/
structure PollerSys where
  status : String
  screenshot : Option String
  url : String
  pc : PollerPC
  guardStatus : String
  writes : List (String × String)
  deriving Repr, DecidableEq

/-- Atomic steps interleaving with the poller: the guard evaluation (with
the page url read on its truthy branch), the completion of the screenshot
await and the write of the encoded bytes, waking from the sleep, the stop
handler firing from the HTTP thread, and the agent coroutine finishing
(successfully or not) on the shared event loop. -/
inductive PAct where
  | guard (pageUrl : String)
  | write (bytes : List Nat)
  | wake
  | stopReq
  | agentDone (ok : Bool)
  deriving Repr, DecidableEq

/-- One interleaved step; `none` when the action is not enabled in this
state.  `stopReq` follows the guard of `stop_test`; `agentDone` is the
status write of lines 114/117 of the runner coroutine. -/
def pstep (s : PollerSys) : PAct → Option PollerSys
  | PAct.guard u =>
      if s.pc = PollerPC.atGuard then
        if s.status = "running" || s.status = "initializing" then
          some { s with pc := PollerPC.capturing, url := u, guardStatus := s.status }
        else
          some { s with pc := PollerPC.done }
      else none
  | PAct.write bs =>
      if s.pc = PollerPC.capturing then
        some { s with
                screenshot := some (base64Encode bs)
                pc := PollerPC.sleeping
                writes := s.writes ++ [(s.guardStatus, s.status)] }
      else none
  | PAct.wake =>
      if s.pc = PollerPC.sleeping then some { s with pc := PollerPC.atGuard } else none
  | PAct.stopReq =>
      if s.status = "running" || s.status = "initializing" then
        some { s with status := "stopped" }
      else none
  | PAct.agentDone ok =>
      some { s with status := if ok then "completed" else "error" }

/-- The poller context as it is created (line 109): status just set to
running, no screenshot yet. -/
def pollerStart : PollerSys :=
  { status := "running", screenshot := none, url := "", pc := PollerPC.atGuard
    guardStatus := "running", writes := [] }

/-- Run a sequence of interleaved actions; a disabled action is skipped. -/
def pexec : PollerSys → List PAct → PollerSys
  | s, [] => s
  | s, a :: as => pexec ((pstep s a).getD s) as

/-- Is a worker event the agent invocation? -/
def isAgentRunEv : WEvent → Bool
  | WEvent.agentRun _ _ => true
  | _ => false

/-- Is a worker event the browser-close attempt? -/
def isCloseEv : WEvent → Bool
  | WEvent.closeBrowser => true
  | _ => false

/-- The event trace of a worker whose runner, browser and agent all
construct successfully, as a function of the oracle's remaining outcomes
(proved equal to the embedded worker's trace below). -/
def happyEvents (wenv : WorkerEnv) (s : String) : List WEvent :=
  [WEvent.setStatus "initializing",
   WEvent.appendLog "Starting WebTestAssistant...",
   WEvent.appendLog "Initializing browser with remote debugging...",
   WEvent.appendLog "Browser initialized successfully",
   WEvent.setStatus "running",
   WEvent.appendLog "Starting AI agent...",
   WEvent.appendLog "Browser view will be available shortly...",
   WEvent.appendLog "AI agent created successfully",
   WEvent.appendLog "Running test automation...",
   WEvent.startPoller,
   WEvent.agentRun ("Execute the following test steps:\n" ++ s) 25] ++
  (match wenv.agent_run with
   | none => [WEvent.appendLog "Test execution completed successfully!",
              WEvent.setStatus "completed"]
   | some e => [WEvent.appendLog ("Test execution error: " ++ e),
                WEvent.setStatus "error"]) ++
  (match wenv.unexpected with
   | none => []
   | some e => [WEvent.setStatus "error",
                WEvent.appendLog ("Unexpected error: " ++ e),
                WEvent.appendLog ("Traceback: " ++ pyTraceback e)]) ++
  (match wenv.browser_close with
   | none => [WEvent.closeBrowser, WEvent.appendLog "Browser closed"]
   | some e => [WEvent.closeBrowser, WEvent.appendLog ("Error closing browser: " ++ e)])

/-- Invariant of the poller transition system: a poller past its guard
recorded an active status, every completed write belongs to an iteration
whose guard saw an active status, and the screenshot is null or the
encoding of some byte string. -/
def PInv (s : PollerSys) : Prop :=
  (s.pc = PollerPC.capturing →
    s.guardStatus = "running" ∨ s.guardStatus = "initializing") ∧
  (∀ p ∈ s.writes, p.1 = "running" ∨ p.1 = "initializing") ∧
  (s.screenshot = none ∨ ∃ bs, s.screenshot = some (base64Encode bs))

/-- An environment with the credential set and the automation library
importable. -/
def goodEnv : Env :=
  { gemini_api_key := some "k", browser_use_available := true }

/-- The globals right after an accepted start of "go to example.com". -/
def workerStart : RunState :=
  { current_test := some "go to example.com"
    test_status := "starting"
    test_logs := ["Test steps received", "Preparing to start test execution..."]
    browser_screenshot := none
    browser_url := "" }

/-- Fresh globals with a run in progress. -/
def stRunning : RunState :=
  { initState with test_status := "running" }

/-- Worker oracle: everything succeeds. -/
def wenvAllOk : WorkerEnv :=
  { browser_use_available := true, runner_init := none, browser_init := none
    agent_create := none, agent_run := none, unexpected := none, browser_close := none }

/-- Worker oracle: constructing the `TestRunner` (the LLM client) raises. -/
def wenvInitFail : WorkerEnv :=
  { wenvAllOk with runner_init := some "llm boom" }

/-- Worker oracle: constructing the browser raises. -/
def wenvBrowserFail : WorkerEnv :=
  { wenvAllOk with browser_init := some "browser boom" }

/-- Worker oracle: the agent run raises. -/
def wenvAgentFail : WorkerEnv :=
  { wenvAllOk with agent_run := some "agent boom" }

/-- Worker oracle: closing the browser raises. -/
def wenvCloseFail : WorkerEnv :=
  { wenvAllOk with browser_close := some "close boom" }

/-- First start request against a fresh system. -/
def cexStart1 : Sys × Option Resp :=
  Sys.step goodEnv Sys.start (SysEvent.startReq (some (some "go to example.com")))

/-- Second start request, issued before the first run's worker thread has
executed a single step. -/
def cexStart2 : Sys × Option Resp :=
  Sys.step goodEnv cexStart1.1 (SysEvent.startReq (some (some "go to example.com")))

/-- A poller trace: the guard passes while the run is active, the stop
endpoint fires during the screenshot await, and the write then lands. -/
def c5Trace : PollerSys :=
  pexec pollerStart [PAct.guard "http://example.com", PAct.stopReq, PAct.write [104, 105]]

theorem isB64Char_getD : ∀ m < 64, isB64Char (b64Alphabet.getD m 'A') = true := by
  decide

theorem isB64Char_b64Char (n : Nat) : isB64Char (b64Char n) = true :=
  isB64Char_getD (n % 64) (Nat.mod_lt _ (by norm_num))

theorem b64EncodeChunks_cons_ne_nil (b : Nat) (bs : List Nat) :
    (b64EncodeChunks (b :: bs)).isEmpty = false := by
  match bs with
  | [] => rfl
  | [b2] => rfl
  | b2 :: b3 :: rest => rfl

theorem validB64Chunks_encode_fuel :
    ∀ (fuel : Nat) (bs : List Nat), bs.length ≤ fuel →
      validB64Chunks (b64EncodeChunks bs) = true := by
  intro fuel
  induction fuel with
  | zero =>
      intro bs h
      have hbs : bs = [] := List.length_eq_zero.mp (Nat.le_zero.mp h)
      subst hbs; rfl
  | succ n ih =>
      intro bs h
      match bs with
      | [] => rfl
      | [b1] => simp [b64EncodeChunks, validB64Chunks, isB64Char_b64Char]
      | [b1, b2] => simp [b64EncodeChunks, validB64Chunks, isB64Char_b64Char]
      | b1 :: b2 :: b3 :: rest =>
          cases rest with
          | nil => simp [b64EncodeChunks, validB64Chunks, isB64Char_b64Char]
          | cons x xs =>
              have hne := b64EncodeChunks_cons_ne_nil x xs
              have hrec : validB64Chunks (b64EncodeChunks (x :: xs)) = true := by
                apply ih
                simp only [List.length_cons] at h ⊢
                omega
              simp [b64EncodeChunks, validB64Chunks, hne, isB64Char_b64Char, hrec]

theorem base64Encode_valid (bs : List Nat) : validBase64 (base64Encode bs) = true :=
  validB64Chunks_encode_fuel bs.length bs (Nat.le_refl _)

theorem run_async_test_events_const (wenv : WorkerEnv) (s : String)
    (st st' : RunState) :
    (run_async_test wenv s st).events = (run_async_test wenv s st').events := by
  cases wenv with
  | mk bua ri bi ac ar ux bc =>
      cases ri <;> cases bua <;> cases bi <;> cases ac <;> cases ar <;>
        cases ux <;> cases bc <;> rfl

theorem run_async_test_escaped_none (wenv : WorkerEnv) (s : String)
    (st : RunState) :
    (run_async_test wenv s st).escaped = none := by
  cases wenv with
  | mk bua ri bi ac ar ux bc =>
      cases ri <;> cases bua <;> cases bi <;> cases ac <;> cases ar <;>
        cases ux <;> cases bc <;> rfl

set_option maxHeartbeats 2000000 in
theorem run_async_test_events_happy (wenv : WorkerEnv) (s : String)
    (st : RunState) (h1 : wenv.runner_init = none)
    (h2 : wenv.browser_use_available = true) (h3 : wenv.browser_init = none)
    (h4 : wenv.agent_create = none) :
    (run_async_test wenv s st).events = happyEvents wenv s := by
  obtain ⟨bua, ri, bi, ac, ar, ux, bc⟩ := wenv
  dsimp only at h1 h2 h3 h4
  subst h1; subst h2; subst h3; subst h4
  cases ar <;> cases ux <;> cases bc <;>
    simp [run_async_test, TestRunner.run_test, runTestBody, W.log, W.setStatus, W.ev, happyEvents]

theorem pinv_pollerStart : PInv pollerStart := by
  refine ⟨fun h => by simp [pollerStart] at h, ?_, Or.inl rfl⟩
  intro p hp
  simp [pollerStart] at hp

theorem pinv_pstep (s : PollerSys) (a : PAct) (h : PInv s) :
    PInv ((pstep s a).getD s) := by
  obtain ⟨h1, h2, h3⟩ := h
  cases a with
  | guard u =>
      simp only [pstep]
      split_ifs with hpc hst
      · simp only [Option.getD_some]
        refine ⟨fun _ => ?_, h2, h3⟩
        simpa using hst
      · simp only [Option.getD_some]
        exact ⟨fun hc => by simp at hc, h2, h3⟩
      · simp only [Option.getD_none]
        exact ⟨h1, h2, h3⟩
  | write bs =>
      simp only [pstep]
      split_ifs with hpc
      · simp only [Option.getD_some]
        refine ⟨fun hc => by simp at hc, ?_, Or.inr ⟨bs, rfl⟩⟩
        intro p hp
        rcases List.mem_append.mp hp with hp | hp
        · exact h2 p hp
        · have hp' : p = (s.guardStatus, s.status) := by simpa using hp
          subst hp'
          exact h1 hpc
      · simp only [Option.getD_none]
        exact ⟨h1, h2, h3⟩
  | wake =>
      simp only [pstep]
      split_ifs with hpc
      · simp only [Option.getD_some]
        exact ⟨fun hc => by simp at hc, h2, h3⟩
      · simp only [Option.getD_none]
        exact ⟨h1, h2, h3⟩
  | stopReq =>
      simp only [pstep]
      split_ifs with hst
      · simp only [Option.getD_some]
        exact ⟨h1, h2, h3⟩
      · simp only [Option.getD_none]
        exact ⟨h1, h2, h3⟩
  | agentDone ok =>
      simp only [pstep, Option.getD_some]
      exact ⟨h1, h2, h3⟩

theorem pinv_pexec (acts : List PAct) :
    ∀ s : PollerSys, PInv s → PInv (pexec s acts) := by
  induction acts with
  | nil => intro s h; exact h
  | cons a as ih => intro s h; exact ih _ (pinv_pstep s a h)

/-- C4: a POST /api/run-test whose testSteps text is empty or
whitespace-only is answered 400 with error body "Test steps cannot be
empty", no worker thread is spawned, and no field of the shared state is
mutated. -/
theorem c4_empty_steps_rejected (env : Env) (st : RunState) (s : String)
    (h : stripIsEmpty s = true) :
    run_test env st (some (some s)) =
      { resp := Resp.err 400 "Test steps cannot be empty", state := st
        spawned := none } := by
  simp [run_test, h]

/-- Witness for C4 at the whitespace-only input "   ". -/
theorem c4_empty_steps_rejected_witness :
    run_test goodEnv initState (some (some "   ")) =
      { resp := Resp.err 400 "Test steps cannot be empty", state := initState
        spawned := none } :=
  c4_empty_steps_rejected goodEnv initState "   " (by decide)

/-- C10: a POST /api/run-test whose JSON body lacks the testSteps key is
treated exactly as empty steps: 400 with body error "Test steps cannot be
empty", no state mutation, no worker spawned. -/
theorem c10_missing_testSteps (env : Env) (st : RunState) :
    run_test env st (some none) =
      { resp := Resp.err 400 "Test steps cannot be empty", state := st
        spawned := none } ∧
    run_test env st (some none) = run_test env st (some (some "")) := by
  exact ⟨rfl, rfl⟩

/-- C7: a POST /api/run-test with non-empty steps while GEMINI_API_KEY is
unset and no run is active (status idle) is answered 500 with an error
body containing "not configured", and the state is unchanged. -/
theorem c7_missing_key_500 (st : RunState) (s : String) (bua : Bool)
    (h1 : stripIsEmpty s = false) (h2 : st.test_status = "idle") :
    run_test { gemini_api_key := none, browser_use_available := bua } st
        (some (some s)) =
      { resp := Resp.err 500 "GEMINI_API_KEY is not configured", state := st
        spawned := none } ∧
    ∃ pre post,
      "GEMINI_API_KEY is not configured" = pre ++ "not configured" ++ post := by
  constructor
  · simp [run_test, h1, h2]
  · exact ⟨"GEMINI_API_KEY is ", "", rfl⟩

/-- Witness for C7 at steps "go to example.com" against a fresh state. -/
theorem c7_missing_key_500_witness :
    run_test { gemini_api_key := none, browser_use_available := true } initState
        (some (some "go to example.com")) =
      { resp := Resp.err 500 "GEMINI_API_KEY is not configured", state := initState
        spawned := none } ∧
    ∃ pre post,
      "GEMINI_API_KEY is not configured" = pre ++ "not configured" ++ post :=
  c7_missing_key_500 initState "go to example.com" true (by decide) rfl

/-- C9: an accepted start resets the shared state to exactly
(status starting, steps as requested, the two fresh log lines, no
screenshot, empty url), spawns a worker carrying the request steps, and
the immediate response reports the freshly-reset status "starting" with
testId "current" and the cdp port. -/
theorem c9_accept_resets (env : Env) (st : RunState) (s : String)
    (h1 : stripIsEmpty s = false)
    (h2 : st.test_status ≠ "running") (h3 : st.test_status ≠ "initializing")
    (h4 : env.gemini_api_key.getD "" ≠ "") (h5 : env.browser_use_available = true) :
    run_test env st (some (some s)) =
      { resp := { code := 200, errorMsg := none
                  message := some "Test execution started"
                  statusVal := some "starting", testId := some "current"
                  cdpPort := some cdp_port }
        state := { current_test := some s, test_status := "starting"
                   test_logs := ["Test steps received",
                                 "Preparing to start test execution..."]
                   browser_screenshot := none, browser_url := "" }
        spawned := some s } := by
  simp [run_test, h1, h2, h3, h4, h5]

/-- Witness for C9: a fresh idle system accepting "go to example.com". -/
theorem c9_accept_resets_witness :
    run_test goodEnv initState (some (some "go to example.com")) =
      { resp := { code := 200, errorMsg := none
                  message := some "Test execution started"
                  statusVal := some "starting", testId := some "current"
                  cdpPort := some cdp_port }
        state := { current_test := some "go to example.com"
                   test_status := "starting"
                   test_logs := ["Test steps received",
                                 "Preparing to start test execution..."]
                   browser_screenshot := none, browser_url := "" }
        spawned := some "go to example.com" } :=
  c9_accept_resets goodEnv initState "go to example.com" (by decide) (by decide)
    (by decide) (by decide) rfl

/-- C1 (counterexample): after one accepted start, the run is active with
status "starting", yet a second POST /api/run-test is accepted with 200
instead of being rejected with 409, leaving two spawned runs pending. -/
theorem c1_second_start_accepted :
    cexStart1.1.run.test_status = "starting" ∧
    cexStart2.2 = some { code := 200, errorMsg := none
                         message := some "Test execution started"
                         statusVal := some "starting", testId := some "current"
                         cdpPort := some 9222 } ∧
    cexStart2.1.pending = ["go to example.com", "go to example.com"] := by
  decide

/-- C1 (amended): a POST /api/run-test with non-empty steps issued while
status is "running" or "initializing" is always rejected with 409 and
body error "A test is already running", leaving the state unchanged and
spawning nothing; the guard does not cover status "starting". -/
theorem c1_409_when_running (env : Env) (st : RunState) (ts : Option String)
    (h1 : stripIsEmpty (ts.getD "") = false)
    (h2 : st.test_status = "running" ∨ st.test_status = "initializing") :
    run_test env st (some ts) =
      { resp := Resp.err 409 "A test is already running", state := st
        spawned := none } := by
  rcases h2 with h2 | h2 <;> simp [run_test, h1, h2]

/-- Witness for C1 (amended) at a running state. -/
theorem c1_409_when_running_witness :
    run_test goodEnv stRunning (some (some "go to example.com")) =
      { resp := Resp.err 409 "A test is already running", state := stRunning
        spawned := none } :=
  c1_409_when_running goodEnv stRunning (some "go to example.com") (by decide)
    (Or.inl rfl)

/-- C6: stop-test with status running or initializing sets status to
stopped, appends exactly one log line and changes nothing else in the
code's own state; with any other status it answers 200 with message "No
test is currently running" and changes nothing; and stopping never alters
the actions a worker will perform (no cancellation of the worker, agent
call or browser). -/
theorem c6_stop_contract (st : RunState) :
    (st.test_status = "running" ∨ st.test_status = "initializing" →
      stop_test st =
        { resp := { code := 200, errorMsg := none
                    message := some "Test execution stopped"
                    statusVal := none, testId := none, cdpPort := none }
          state := { st with
                      test_status := "stopped"
                      test_logs := st.test_logs ++ ["Test execution stopped by user"] } }) ∧
    (st.test_status ≠ "running" → st.test_status ≠ "initializing" →
      stop_test st =
        { resp := { code := 200, errorMsg := none
                    message := some "No test is currently running"
                    statusVal := none, testId := none, cdpPort := none }
          state := st }) ∧
    (∀ wenv s, (run_async_test wenv s (stop_test st).state).events =
               (run_async_test wenv s st).events) := by
  refine ⟨?_, ?_, ?_⟩
  · intro h; rcases h with h | h <;> simp [stop_test, h]
  · intro h1 h2; simp [stop_test, h1, h2]
  · intro wenv s; exact run_async_test_events_const wenv s _ st

/-- C2 (counterexample): when the browser construction fails, the run
reaches the terminal status error with the browser-release step never
attempted (the close is guarded by `if self.browser`). -/
theorem c2_no_close_when_browser_absent :
    (run_async_test wenvBrowserFail "go to example.com" workerStart).state.test_status
      = "error" ∧
    (run_async_test wenvBrowserFail "go to example.com" workerStart).events.countP
      isCloseEv = 0 := by
  decide

/-- C2 (amended): when the browser handle was constructed, the close is
attempted exactly once regardless of which later stage failed; when the
browser was never constructed, it is not attempted; the close outcome
never changes the recorded status; and a close failure is logged. -/
theorem c2_close_once_when_browser_built (wenv : WorkerEnv) (s : String)
    (st : RunState) (h1 : wenv.runner_init = none)
    (h2 : wenv.browser_use_available = true) :
    (wenv.browser_init = none →
      (run_async_test wenv s st).events.countP isCloseEv = 1) ∧
    (∀ e, wenv.browser_init = some e →
      (run_async_test wenv s st).events.countP isCloseEv = 0) ∧
    (run_async_test wenv s st).state.test_status =
      (run_async_test { wenv with browser_close := none } s st).state.test_status ∧
    (∀ e, wenv.browser_close = some e → wenv.browser_init = none →
      ("Error closing browser: " ++ e) ∈ (run_async_test wenv s st).state.test_logs) := by
  obtain ⟨bua, ri, bi, ac, ar, ux, bc⟩ := wenv
  dsimp only at h1 h2
  subst h1; subst h2
  refine ⟨?_, ?_, ?_, ?_⟩
  · intro hbi; dsimp only at hbi; subst hbi
    cases ac <;> cases ar <;> cases ux <;> cases bc <;>
      simp [run_async_test, TestRunner.run_test, runTestBody, W.log, W.setStatus,
        W.ev, isCloseEv]
  · intro e hbi; dsimp only at hbi; subst hbi
    simp [run_async_test, TestRunner.run_test, runTestBody, W.log, W.setStatus,
      W.ev, isCloseEv]
  · cases bi <;> cases ac <;> cases ar <;> cases ux <;> cases bc <;>
      simp [run_async_test, TestRunner.run_test, runTestBody, W.log, W.setStatus,
        W.ev]
  · intro e hbc hbi
    dsimp only at hbc hbi
    subst hbc; subst hbi
    cases ac <;> cases ar <;> cases ux <;>
      simp [run_async_test, TestRunner.run_test, runTestBody, W.log, W.setStatus,
        W.ev]

/-- Witness for C2 (amended): browser built, close failing — attempted
once, failure logged. -/
theorem c2_close_once_when_browser_built_witness :
    (run_async_test wenvCloseFail "go to example.com" workerStart).events.countP
      isCloseEv = 1 ∧
    ("Error closing browser: " ++ "close boom") ∈
      (run_async_test wenvCloseFail "go to example.com" workerStart).state.test_logs :=
  ⟨(c2_close_once_when_browser_built wenvCloseFail "go to example.com" workerStart
      rfl rfl).1 rfl,
   (c2_close_once_when_browser_built wenvCloseFail "go to example.com" workerStart
      rfl rfl).2.2.2 "close boom" rfl rfl⟩

/-- C3 (counterexample): when constructing the test runner raises, the
worker records status error and the error text, but no diagnostic
traceback line is appended to the logs. -/
theorem c3_no_traceback_on_runner_fail :
    (run_async_test wenvInitFail "go to example.com" workerStart).state.test_status
      = "error" ∧
    (run_async_test wenvInitFail "go to example.com" workerStart).state.test_logs =
      ["Test steps received", "Preparing to start test execution...",
       "Failed to initialize test runner: llm boom"] ∧
    ((run_async_test wenvInitFail "go to example.com" workerStart).state.test_logs.filter
        (fun l => l.take 11 = "Traceback: ")) = [] := by
  decide

/-- C3 (amended): nothing ever escapes the worker thread; a runner
construction failure is caught with status error and the error text
appended (no traceback in the logs); an exception escaping the coroutine
body is caught at its outermost level with status error, the error text
and a full traceback appended to the logs. -/
theorem c3_worker_catches_all (wenv : WorkerEnv) (s : String) (st : RunState) :
    (run_async_test wenv s st).escaped = none ∧
    (∀ e, wenv.runner_init = some e →
      (run_async_test wenv s st).state.test_status = "error" ∧
      ("Failed to initialize test runner: " ++ e) ∈
        (run_async_test wenv s st).state.test_logs) ∧
    (∀ e, wenv.runner_init = none → wenv.browser_use_available = true →
      wenv.browser_init = none → wenv.agent_create = none →
      wenv.unexpected = some e →
      (run_async_test wenv s st).state.test_status = "error" ∧
      ("Unexpected error: " ++ e) ∈ (run_async_test wenv s st).state.test_logs ∧
      ("Traceback: " ++ pyTraceback e) ∈ (run_async_test wenv s st).state.test_logs) := by
  obtain ⟨bua, ri, bi, ac, ar, ux, bc⟩ := wenv
  refine ⟨run_async_test_escaped_none _ s st, ?_, ?_⟩
  · intro e h; dsimp only at h; subst h
    refine ⟨rfl, ?_⟩
    simp [run_async_test]
  · intro e hri hbua hbi hac hux
    dsimp only at hri hbua hbi hac hux
    subst hri; subst hbua; subst hbi; subst hac; subst hux
    cases ar <;> cases bc <;>
      refine ⟨?_, ?_, ?_⟩ <;>
        simp [run_async_test, TestRunner.run_test, runTestBody, W.log, W.setStatus,
          W.ev]

/-- C8: once the runner, browser and agent are built, the worker starts
the screenshot task and immediately invokes the agent bound to the task
text "Execute the following test steps:\n<steps>" with a hard cap of 25
actions, and does so exactly once; agent success logs the completion line
and sets status completed; agent failure logs the error and sets status
error. -/
theorem c8_agent_invocation (wenv : WorkerEnv) (s : String) (st : RunState)
    (h1 : wenv.runner_init = none) (h2 : wenv.browser_use_available = true)
    (h3 : wenv.browser_init = none) (h4 : wenv.agent_create = none) :
    (∃ pre post, (run_async_test wenv s st).events =
        pre ++ [WEvent.startPoller,
                WEvent.agentRun ("Execute the following test steps:\n" ++ s) 25] ++
          post) ∧
    (run_async_test wenv s st).events.countP isAgentRunEv = 1 ∧
    (wenv.agent_run = none →
      WEvent.appendLog "Test execution completed successfully!" ∈
        (run_async_test wenv s st).events ∧
      WEvent.setStatus "completed" ∈ (run_async_test wenv s st).events) ∧
    (∀ e, wenv.agent_run = some e →
      WEvent.appendLog ("Test execution error: " ++ e) ∈
        (run_async_test wenv s st).events ∧
      WEvent.setStatus "error" ∈ (run_async_test wenv s st).events) := by
  have he := run_async_test_events_happy wenv s st h1 h2 h3 h4
  rw [he]
  obtain ⟨bua, ri, bi, ac, ar, ux, bc⟩ := wenv
  refine ⟨?_, ?_, ?_, ?_⟩
  · refine ⟨[WEvent.setStatus "initializing",
      WEvent.appendLog "Starting WebTestAssistant...",
      WEvent.appendLog "Initializing browser with remote debugging...",
      WEvent.appendLog "Browser initialized successfully",
      WEvent.setStatus "running",
      WEvent.appendLog "Starting AI agent...",
      WEvent.appendLog "Browser view will be available shortly...",
      WEvent.appendLog "AI agent created successfully",
      WEvent.appendLog "Running test automation..."], ?_, ?_⟩
    · exact (match ar with
        | none => [WEvent.appendLog "Test execution completed successfully!",
                   WEvent.setStatus "completed"]
        | some e => [WEvent.appendLog ("Test execution error: " ++ e),
                     WEvent.setStatus "error"]) ++
        (match ux with
         | none => []
         | some e => [WEvent.setStatus "error",
                      WEvent.appendLog ("Unexpected error: " ++ e),
                      WEvent.appendLog ("Traceback: " ++ pyTraceback e)]) ++
        (match bc with
         | none => [WEvent.closeBrowser, WEvent.appendLog "Browser closed"]
         | some e => [WEvent.closeBrowser,
                      WEvent.appendLog ("Error closing browser: " ++ e)])
    · cases ar <;> cases ux <;> cases bc <;> rfl
  · cases ar <;> cases ux <;> cases bc <;> rfl
  · intro har; dsimp only at har; subst har
    cases ux <;> cases bc <;> exact ⟨by simp [happyEvents], by simp [happyEvents]⟩
  · intro e har; dsimp only at har; subst har
    cases ux <;> cases bc <;> exact ⟨by simp [happyEvents], by simp [happyEvents]⟩

/-- Witness for C8: an all-successful run and an agent-failing run
against a freshly accepted state. -/
theorem c8_agent_invocation_witness :
    (∃ pre post, (run_async_test wenvAllOk "go to example.com" workerStart).events =
        pre ++ [WEvent.startPoller,
                WEvent.agentRun
                  ("Execute the following test steps:\n" ++ "go to example.com") 25] ++
          post) ∧
    WEvent.setStatus "completed" ∈
      (run_async_test wenvAllOk "go to example.com" workerStart).events ∧
    WEvent.setStatus "error" ∈
      (run_async_test wenvAgentFail "go to example.com" workerStart).events :=
  ⟨(c8_agent_invocation wenvAllOk "go to example.com" workerStart rfl rfl rfl rfl).1,
   ((c8_agent_invocation wenvAllOk "go to example.com" workerStart rfl rfl rfl
      rfl).2.2.1 rfl).2,
   ((c8_agent_invocation wenvAgentFail "go to example.com" workerStart rfl rfl rfl
      rfl).2.2.2 "agent boom" rfl).2⟩

/-- C5 (counterexample): the poller's guard passes while the run is
active, the stop endpoint fires during the screenshot await, and the
write then lands while status is already "stopped" — a screenshot write
outside status running/initializing. -/
theorem c5_write_after_stop :
    c5Trace.writes = [("running", "stopped")] ∧
    c5Trace.status = "stopped" ∧
    c5Trace.screenshot = some (base64Encode [104, 105]) := by
  decide

/-- C5 (amended): in every reachable poller state the screenshot is null
or a valid base64 encoding of the captured bytes, and every screenshot
write belongs to an iteration whose guard observed status running or
initializing — though the write itself may land after the status has left
that set. -/
theorem c5_screenshot_null_or_b64 (acts : List PAct) :
    ((pexec pollerStart acts).screenshot = none ∨
      ∃ bs, (pexec pollerStart acts).screenshot = some (base64Encode bs) ∧
        validBase64 (base64Encode bs) = true) ∧
    (∀ p ∈ (pexec pollerStart acts).writes,
      p.1 = "running" ∨ p.1 = "initializing") := by
  obtain ⟨h1, h2, h3⟩ := pinv_pexec acts pollerStart pinv_pollerStart
  refine ⟨?_, h2⟩
  rcases h3 with h3 | ⟨bs, h3⟩
  · exact Or.inl h3
  · exact Or.inr ⟨bs, h3, base64Encode_valid bs⟩

end WebTestAssistant
